import Mathlib

/-!
Shallow embedding of the order/cart/payment slice of the JFD backend
(Express + Prisma).  Monetary values (Prisma `Decimal`, JS `number`) are
modelled as exact rationals; record ids as naturals; the database as lists
of rows.  Each controller is a pure function from the database (plus the
request data and the outcome of any external call) to the new database and
the response branch taken.
-/

namespace JFD

/-- A Product row (prisma/schema.prisma, model Product; fields the slice reads). -/

structure Product where
  id : Nat
  name : String
  price : ℚ
  stockQuantity : Int
  isPublished : Bool
deriving DecidableEq, Repr, Inhabited

/-- A CartItem row (model CartItem). `price` is the snapshot taken at add time. -/

structure CartItem where
  id : Nat
  cartId : Nat
  productId : Nat
  quantity : Int
  price : ℚ
deriving DecidableEq, Repr

/-- A Cart row (model Cart). -/

structure Cart where
  id : Nat
  sessionId : Nat
  total : ℚ
deriving DecidableEq, Repr

/-- Order status enum (schema enum OrderStatus). -/

inductive OrderStatus
  | PENDING
  | PROCESSING
  | SHIPPED
  | DELIVERED
  | CANCELLED
deriving DecidableEq, Repr

/-- The paymentResult blob stored on a paid order (controller-defined shape). -/

structure PaymentResult where
  resultId : Nat
  resultStatus : String
  updateTime : Nat
deriving DecidableEq, Repr

/-- An Order row (model Order; fields the slice reads or writes). -/

structure Order where
  id : Nat
  userId : Nat
  total : ℚ
  status : OrderStatus
  isPaid : Bool
  isShipped : Bool
  isDelivered : Bool
  paidAt : Option Nat
  paymentMethod : Option String
  paymentProviderOrderId : Option Nat
  paymentResult : Option PaymentResult
deriving DecidableEq, Repr

/-- An OrderItem row (model OrderItem). Name/price are snapshots. -/

structure OrderItem where
  id : Nat
  orderId : Nat
  productId : Nat
  name : String
  price : ℚ
  quantity : Int
  totalPrice : ℚ
deriving DecidableEq, Repr

/-- The relational store: one list of rows per model. -/

structure DB where
  products : List Product
  carts : List Cart
  cartItems : List CartItem
  orders : List Order
  orderItems : List OrderItem
deriving DecidableEq, Repr

/-- Response branch taken by a handler (each constructor is one
`res.status(...)` site of the controllers). -/

inductive Resp
  | invalidQuantity
  | notFound
  | unavailable
  | insufficientStock
  | forbidden
  | alreadyPaid
  | providerError
  | missingToken
  | missingOrderId
  | invalidState
  | okItem
  | created
  | okRemoved
  | okCart
  | okCleared
  | okEmptyCart
  | okJson
  | redirectSuccess
  | redirectCancel
deriving DecidableEq, Repr

/-- HTTP status code of each response branch, as sent by the controllers. -/

def Resp.httpStatus : Resp → Nat
  | .invalidQuantity => 400
  | .notFound => 404
  | .unavailable => 400
  | .insufficientStock => 400
  | .forbidden => 403
  | .alreadyPaid => 400
  | .providerError => 500
  | .missingToken => 400
  | .missingOrderId => 400
  | .invalidState => 400
  | .okItem => 200
  | .created => 201
  | .okRemoved => 200
  | .okCart => 200
  | .okCleared => 200
  | .okEmptyCart => 200
  | .okJson => 200
  | .redirectSuccess => 302
  | .redirectCancel => 302

/-- Result of running one handler: the database afterwards and the branch taken. -/

structure OpResult where
  db : DB
  resp : Resp
deriving DecidableEq, Repr

/-- Embeds `prisma.product.findUnique({ where: { id } })`. -/

def findProduct (db : DB) (pid : Nat) : Option Product :=
  db.products.find? (·.id == pid)

/-- Embeds `prisma.cart.findUnique({ where: { id } })`. -/

def findCart (db : DB) (cid : Nat) : Option Cart :=
  db.carts.find? (·.id == cid)

/-- Embeds `prisma.cart.findUnique({ where: { sessionId } })`. -/

def findCartBySession (db : DB) (sid : Nat) : Option Cart :=
  db.carts.find? (·.sessionId == sid)

/-- Embeds `prisma.cartItem.findUnique({ where: { id } })`. -/

def findCartItem (db : DB) (iid : Nat) : Option CartItem :=
  db.cartItems.find? (·.id == iid)

/-- Embeds `prisma.cartItem.findFirst({ where: { cartId, productId } })`. -/

def findFirstCartItem (db : DB) (cid pid : Nat) : Option CartItem :=
  db.cartItems.find? (fun it => it.cartId == cid && it.productId == pid)

/-- Embeds `prisma.cartItem.findMany({ where: { cartId } })`. -/

def itemsOfCart (db : DB) (cid : Nat) : List CartItem :=
  db.cartItems.filter (·.cartId == cid)

/-- Embeds `prisma.cart.update({ where: { id }, data: { total } })`. -/

def setCartTotal (db : DB) (cid : Nat) (t : ℚ) : DB :=
  { db with carts := db.carts.map (fun c => if c.id == cid then { c with total := t } else c) }

/-- Embeds `prisma.cartItem.update({ where: { id }, data: { quantity } })`. -/

def setItemQuantity (db : DB) (iid : Nat) (q : Int) : DB :=
  { db with cartItems :=
      db.cartItems.map (fun it => if it.id == iid then { it with quantity := q } else it) }

/-- Embeds `prisma.cartItem.delete({ where: { id } })`. -/

def deleteCartItem (db : DB) (iid : Nat) : DB :=
  { db with cartItems := db.cartItems.filter (fun it => it.id != iid) }

/-- Embeds `prisma.cartItem.create({ data: ... })` (append a fresh row). -/

def insertCartItem (db : DB) (it : CartItem) : DB :=
  { db with cartItems := db.cartItems ++ [it] }

/-- Sum of `quantity × stored item price` over a cart's items — the reduce in
the session-variant `updateCartTotal` (`Number(item.price) * item.quantity`). -/

def storedTotal (db : DB) (cid : Nat) : ℚ :=
  (itemsOfCart db cid).foldl (fun sum it => sum + it.price * (it.quantity : ℚ)) 0

/-- The live catalog price of a product referenced by a cart item
(`item.product.price` through the Prisma include). -/

def livePrice (db : DB) (pid : Nat) : ℚ :=
  ((findProduct db pid).map (·.price)).getD 0

/-- Sum of `quantity × live product price` over a cart's items — the reduce in
the user-variant handlers (`item.quantity * item.product.price.toNumber()`). -/

def liveTotal (db : DB) (cid : Nat) : ℚ :=
  (itemsOfCart db cid).foldl (fun sum it => sum + (it.quantity : ℚ) * livePrice db it.productId) 0

namespace SessionCart

/-- Helper `updateCartTotal(cartId)` of the session-cart controller: recompute
the total from the cart's items (stored item price) and persist it. -/

def updateCartTotal (db : DB) (cid : Nat) : DB :=
  setCartTotal db cid (storedTotal db cid)

/-- Handler `addItemToCart` (session-cart controller, POST /carts/:cartId/items).
`price` is the optional client-supplied body price (`price || product.price`:
a missing or zero price falls back to the product's price).  `freshItemId` is
the id the store assigns to a newly created row. -/

def addItemToCart (db : DB) (cartId productId : Nat) (quantity : Int)
    (price : Option ℚ) (freshItemId : Nat) : OpResult :=
  if quantity ≤ 0 then ⟨db, .invalidQuantity⟩
  else
    match findCart db cartId with
    | none => ⟨db, .notFound⟩
    | some _ =>
      match findProduct db productId with
      | none => ⟨db, .notFound⟩
      | some product =>
        let itemPrice :=
          match price with
          | some p => if p = 0 then product.price else p
          | none => product.price
        match findFirstCartItem db cartId productId with
        | some existingItem =>
          let db1 := setItemQuantity db existingItem.id (existingItem.quantity + quantity)
          ⟨updateCartTotal db1 cartId, .okItem⟩
        | none =>
          let db1 := insertCartItem db ⟨freshItemId, cartId, productId, quantity, itemPrice⟩
          ⟨updateCartTotal db1 cartId, .created⟩

/-- Handler `updateCartItem` (session-cart controller, PATCH /cart-items/:itemId).
`quantity = none` models an absent body field (`quantity === undefined`). -/

def updateCartItem (db : DB) (itemId : Nat) (quantity : Option Int) : OpResult :=
  match quantity with
  | none => ⟨db, .invalidQuantity⟩
  | some q =>
    if q < 0 then ⟨db, .invalidQuantity⟩
    else
      match findCartItem db itemId with
      | none => ⟨db, .notFound⟩
      | some cartItem =>
        if q == 0 then
          let db1 := deleteCartItem db itemId
          ⟨updateCartTotal db1 cartItem.cartId, .okRemoved⟩
        else
          let db1 := setItemQuantity db itemId q
          ⟨updateCartTotal db1 cartItem.cartId, .okItem⟩

/-- Handler `removeCartItem` (session-cart controller, DELETE /cart-items/:itemId). -/

def removeCartItem (db : DB) (itemId : Nat) : OpResult :=
  match findCartItem db itemId with
  | none => ⟨db, .notFound⟩
  | some cartItem =>
    let db1 := deleteCartItem db itemId
    ⟨updateCartTotal db1 cartItem.cartId, .okRemoved⟩

/-- Handler `clearCart` (session-cart controller, DELETE /carts/:cartId). -/

def clearCart (db : DB) (cartId : Nat) : OpResult :=
  match findCart db cartId with
  | none => ⟨db, .notFound⟩
  | some _ =>
    let db1 := { db with cartItems := db.cartItems.filter (fun it => it.cartId != cartId) }
    ⟨setCartTotal db1 cartId 0, .okCleared⟩

end SessionCart

namespace UserCart

/-- Handler `getUserCart` (user-cart controller): the cart is looked up with
`where: { id: req.user.id }`; when found, the total is recomputed from live
product prices and persisted when it differs from the stored one. -/

def getUserCart (db : DB) (userId : Nat) : OpResult :=
  match findCart db userId with
  | none => ⟨db, .okEmptyCart⟩
  | some cart =>
    let t := liveTotal db cart.id
    if cart.total = t then ⟨db, .okCart⟩
    else ⟨setCartTotal db cart.id t, .okCart⟩

/-- Handler `addItemToCart` (user-cart controller).  The cart is fetched by
`id = req.user.id` and created (with `sessionId = req.user.id`) outside the
transaction when missing; the cumulative-stock failure inside the transaction
rolls the transaction back but keeps that earlier cart creation. -/

def addItemToCart (db : DB) (userId productId : Nat) (quantity : Int)
    (freshCartId freshItemId : Nat) : OpResult :=
  match findProduct db productId with
  | none => ⟨db, .notFound⟩
  | some product =>
    if !product.isPublished then ⟨db, .unavailable⟩
    else if product.stockQuantity < quantity then ⟨db, .insufficientStock⟩
    else
      let dbAndCart : DB × Cart :=
        match findCart db userId with
        | some c => (db, c)
        | none =>
          let c : Cart := ⟨freshCartId, userId, 0⟩
          ({ db with carts := db.carts ++ [c] }, c)
      let db1 := dbAndCart.1
      let cart := dbAndCart.2
      match (itemsOfCart db1 cart.id).find? (·.productId == productId) with
      | some existingCartItem =>
        let newQuantity := existingCartItem.quantity + quantity
        if product.stockQuantity < newQuantity then ⟨db1, .insufficientStock⟩
        else
          let db2 := setItemQuantity db1 existingCartItem.id newQuantity
          ⟨setCartTotal db2 cart.id (liveTotal db2 cart.id), .okCart⟩
      | none =>
        let db2 := insertCartItem db1 ⟨freshItemId, cart.id, productId, quantity, product.price⟩
        ⟨setCartTotal db2 cart.id (liveTotal db2 cart.id), .okCart⟩

/-- Handler `updateCartItem` (user-cart controller).  Quantities below 1 are rejected;
ownership is checked through `cartItem.cart.sessionId`.  The included cart and
product rows always exist under the schema's foreign keys; a dangling
reference is mapped to the not-found branch. -/

def updateCartItem (db : DB) (userId itemId : Nat) (quantity : Int) : OpResult :=
  if quantity < 1 then ⟨db, .invalidQuantity⟩
  else
    match findCartItem db itemId with
    | none => ⟨db, .notFound⟩
    | some cartItem =>
      match findCart db cartItem.cartId, findProduct db cartItem.productId with
      | some cart, some product =>
        if cart.sessionId != userId then ⟨db, .forbidden⟩
        else if product.stockQuantity < quantity then ⟨db, .insufficientStock⟩
        else
          let db1 := setItemQuantity db itemId quantity
          ⟨setCartTotal db1 cartItem.cartId (liveTotal db1 cartItem.cartId), .okCart⟩
      | _, _ => ⟨db, .notFound⟩

/-- Handler `removeCartItem` (user-cart controller). -/

def removeCartItem (db : DB) (userId itemId : Nat) : OpResult :=
  match findCartItem db itemId with
  | none => ⟨db, .notFound⟩
  | some cartItem =>
    match findCart db cartItem.cartId with
    | none => ⟨db, .notFound⟩
    | some cart =>
      if cart.sessionId != userId then ⟨db, .forbidden⟩
      else
        let db1 := deleteCartItem db itemId
        ⟨setCartTotal db1 cartItem.cartId (liveTotal db1 cartItem.cartId), .okCart⟩

/-- Handler `clearCart` (user-cart controller; lookup by `sessionId = req.user.id`). -/

def clearCart (db : DB) (userId : Nat) : OpResult :=
  match findCartBySession db userId with
  | none => ⟨db, .okEmptyCart⟩
  | some cart =>
    let db1 := { db with cartItems := db.cartItems.filter (fun it => it.cartId != cart.id) }
    ⟨setCartTotal db1 cart.id 0, .okCleared⟩

end UserCart

namespace Paypal

/-- The provider's reply to `createPaypalOrder` (id plus whether the links
array carries an `approve` link). -/

structure ProviderOrder where
  providerId : Nat
  hasApprovalUrl : Bool
deriving DecidableEq, Repr

/-- The provider's reply to `capturePaypalPayment`
(`{id, status, update_time, payer}`). -/

structure CaptureData where
  captureId : Nat
  captureStatus : String
  updateTime : Nat
deriving DecidableEq, Repr

/-- A webhook delivery body: `{event_type, resource}` with
`resource.supplementary_data?.related_ids?.order_id` optional. -/

structure WebhookEvent where
  eventType : String
  resourceId : Nat
  relatedOrderId : Option Nat
deriving DecidableEq, Repr

/-- Embeds `prisma.order.findUnique({ where: { id } })`. -/

def findOrder (db : DB) (oid : Nat) : Option Order :=
  db.orders.find? (·.id == oid)

/-- Embeds `prisma.order.findFirst({ where: { paymentProviderOrderId } })`. -/

def findOrderByProviderId (db : DB) (token : Nat) : Option Order :=
  db.orders.find? (·.paymentProviderOrderId == some token)

/-- Embeds `prisma.order.update` applying `f` to the order with the given id. -/

def updateOrder (db : DB) (oid : Nat) (f : Order → Order) : DB :=
  { db with orders := db.orders.map (fun o => if o.id == oid then f o else o) }

/-- Result of `initiatePaypalPayment`: the database, the branch taken, and
whether the provider (`createPaypalOrder`) was called at all. -/

structure InitResult where
  db : DB
  resp : Resp
  providerCalled : Bool
deriving DecidableEq, Repr

/-- Handler `initiatePaypalPayment` (paypal.controller.ts).  `provider` is the outcome
of `createPaypalOrder` on the success path (`none` = the axios call threw). -/

def initiatePaypalPayment (db : DB) (callerId orderId : Nat)
    (provider : Option ProviderOrder) : InitResult :=
  match findOrder db orderId with
  | none => ⟨db, .notFound, false⟩
  | some order =>
    if order.userId != callerId then ⟨db, .forbidden, false⟩
    else if order.isPaid then ⟨db, .alreadyPaid, false⟩
    else
      match provider with
      | none => ⟨db, .providerError, true⟩
      | some po =>
        let db1 := updateOrder db orderId (fun o =>
          { o with paymentMethod := some "PayPal", paymentProviderOrderId := some po.providerId })
        if po.hasApprovalUrl then ⟨db1, .okJson, true⟩
        else ⟨db1, .providerError, true⟩

/-- Handler `handlePaypalConfirmation` (paypal.controller.ts).  `capture` is the
outcome of `capturePaypalPayment` (`none` = the capture call threw); `now` is
`new Date()`.  The order is updated unconditionally — there is no isPaid
guard on this path. -/

def handlePaypalConfirmation (db : DB) (token : Option Nat)
    (capture : Option CaptureData) (now : Nat) : OpResult :=
  match token with
  | none => ⟨db, .missingToken⟩
  | some t =>
    match findOrderByProviderId db t with
    | none => ⟨db, .notFound⟩
    | some order =>
      match capture with
      | none => ⟨db, .providerError⟩
      | some cd =>
        let db1 := updateOrder db order.id (fun o =>
          { o with isPaid := true, paidAt := some now, status := .PROCESSING,
                   paymentResult := some ⟨cd.captureId, cd.captureStatus, cd.updateTime⟩ })
        ⟨db1, .redirectSuccess⟩

/-- Handler `handlePaypalCancellation` (paypal.controller.ts): pure lookup + redirect,
no mutation. -/

def handlePaypalCancellation (db : DB) (token : Option Nat) : OpResult :=
  match token with
  | none => ⟨db, .missingToken⟩
  | some t =>
    match findOrderByProviderId db t with
    | none => ⟨db, .notFound⟩
    | some _ => ⟨db, .redirectCancel⟩

/-- Handler `handlePaypalWebhook` (paypal.controller.ts).  Only
`PAYMENT.CAPTURE.COMPLETED` events are processed, and the order is updated
only when not already paid; `now` is `new Date()`. -/

def handlePaypalWebhook (db : DB) (ev : WebhookEvent) (now : Nat) : OpResult :=
  if ev.eventType == "PAYMENT.CAPTURE.COMPLETED" then
    match ev.relatedOrderId with
    | none => ⟨db, .missingOrderId⟩
    | some poid =>
      match findOrderByProviderId db poid with
      | none => ⟨db, .notFound⟩
      | some order =>
        if order.isPaid then ⟨db, .okJson⟩
        else
          let db1 := updateOrder db order.id (fun o =>
            { o with isPaid := true, paidAt := some now, status := .PROCESSING,
                     paymentResult := some ⟨ev.resourceId, "COMPLETED", now⟩ })
          ⟨db1, .okJson⟩
  else ⟨db, .okJson⟩

end Paypal

namespace Orders

/-- Conditional stock decrement on the product list
(`stockQuantity := stockQuantity - q` on the product with the given id). -/

def decStockP (ps : List Product) (pid : Nat) (q : Int) : List Product :=
  ps.map (fun p => if p.id == pid then { p with stockQuantity := p.stockQuantity - q } else p)

/-- Stock increment on the product list. -/

def incStockP (ps : List Product) (pid : Nat) (q : Int) : List Product :=
  ps.map (fun p => if p.id == pid then { p with stockQuantity := p.stockQuantity + q } else p)

/-- Stock decrement lifted to the store. -/

def decStock (db : DB) (pid : Nat) (q : Int) : DB :=
  { db with products := decStockP db.products pid q }

/-- Stock increment lifted to the store. -/

def incStock (db : DB) (pid : Nat) (q : Int) : DB :=
  { db with products := incStockP db.products pid q }

/-- The stock counter of the product with a given id in a product list
(0 when absent). -/

def stockOfP (ps : List Product) (pid : Nat) : Int :=
  ((ps.find? (·.id == pid)).map (·.stockQuantity)).getD 0

/-- The stock counter of the product with a given id (0 when absent). -/

def stockOf (db : DB) (pid : Nat) : Int :=
  stockOfP db.products pid

/-- The total quantity a request list orders for one product. -/

def orderedQty (reqItems : List (Nat × Int)) (pid : Nat) : Int :=
  ((reqItems.filter (fun pr => pr.1 == pid)).map (fun pr => pr.2)).sum

/-- Modelled from the spec: the validation pass of order placement
(spec §4.3 step 1) — `order.controller.ts` is not among the provided sources
(only the routes file imports it).  For every requested item the product is
fetched; the whole operation fails with NotFound when one is missing,
Unavailable when one is unpublished, InsufficientStock when a requested
quantity exceeds current stock; no mutation happens during this pass. -/

def validateItems (db : DB) : List (Nat × Int) → Option Resp
  | [] => none
  | (pid, q) :: rest =>
    match findProduct db pid with
    | none => some .notFound
    | some p =>
      if !p.isPublished then some .unavailable
      else if p.stockQuantity < q then some .insufficientStock
      else validateItems db rest

/-- Result of order placement: the store, the branch, the new order's id. -/

structure PlaceResult where
  db : DB
  resp : Resp
  orderId : Option Nat
deriving DecidableEq, Repr

/-- Modelled from the spec: order placement (spec §4.3) — `order.controller.ts`
is not among the provided sources.  After the validation pass, one atomic
transaction creates the Order row (status PENDING, isPaid false) together
with all OrderItem rows (snapshotting product name and price), then
decrements every referenced product's stockQuantity by the ordered quantity.
`total` is the client-declared total (spec §4.3 input, accepted as given);
`freshOrderId`/`freshItemBase` are the ids the store assigns to new rows. -/

def placeOrder (db : DB) (userId : Nat) (reqItems : List (Nat × Int)) (total : ℚ)
    (freshOrderId freshItemBase : Nat) : PlaceResult :=
  match validateItems db reqItems with
  | some e => ⟨db, e, none⟩
  | none =>
    let order : Order :=
      { id := freshOrderId, userId := userId, total := total, status := .PENDING,
        isPaid := false, isShipped := false, isDelivered := false, paidAt := none,
        paymentMethod := none, paymentProviderOrderId := none, paymentResult := none }
    let newItems : List OrderItem := reqItems.enum.map (fun pr =>
      let p := (findProduct db pr.2.1).getD default
      { id := freshItemBase + pr.1, orderId := freshOrderId, productId := pr.2.1,
        name := p.name, price := p.price, quantity := pr.2.2,
        totalPrice := p.price * (pr.2.2 : ℚ) })
    let db1 := { db with orders := db.orders ++ [order],
                         orderItems := db.orderItems ++ newItems }
    let db2 := reqItems.foldl (fun d pr => decStock d pr.1 pr.2) db1
    ⟨db2, .created, some freshOrderId⟩

/-- Modelled from the spec: order cancellation (spec §4.4) —
`order.controller.ts` is not among the provided sources.  The caller must be
the order's owner or an administrator (Forbidden otherwise); a shipped or
delivered order cannot be cancelled (InvalidState); on success one atomic
transaction increments stockQuantity on every referenced product by its
ordered quantity and sets the order status to CANCELLED. -/

def cancelOrder (db : DB) (callerId : Nat) (isAdmin : Bool) (orderId : Nat) : OpResult :=
  match Paypal.findOrder db orderId with
  | none => ⟨db, .notFound⟩
  | some order =>
    if order.userId != callerId && !isAdmin then ⟨db, .forbidden⟩
    else if order.isShipped || order.isDelivered then ⟨db, .invalidState⟩
    else
      let oitems := db.orderItems.filter (·.orderId == orderId)
      let db1 := oitems.foldl (fun d it => incStock d it.productId it.quantity) db
      let cancelled := db1.orders.map (fun o =>
        if o.id == orderId then { o with status := OrderStatus.CANCELLED } else o)
      let db2 := { db1 with orders := cancelled }
      ⟨db2, .okJson⟩

end Orders

/-! ## Concrete stores used by counterexamples and witnesses -/

/-- An unpaid order (id 1, owner 1, provider token 77). -/

def payOrder : Order :=
  { id := 1, userId := 1, total := 50, status := .PENDING, isPaid := false,
    isShipped := false, isDelivered := false, paidAt := none,
    paymentMethod := some "PayPal", paymentProviderOrderId := some 77,
    paymentResult := none }

/-- A store holding only `payOrder`. -/

def payDb : DB :=
  { products := [], carts := [], cartItems := [], orders := [payOrder], orderItems := [] }

/-- An order already marked paid (paidAt 5), since shipped. -/

def paidOrder : Order :=
  { id := 1, userId := 1, total := 50, status := .SHIPPED, isPaid := true,
    isShipped := true, isDelivered := false, paidAt := some 5,
    paymentMethod := some "PayPal", paymentProviderOrderId := some 77,
    paymentResult := some { resultId := 9, resultStatus := "COMPLETED", updateTime := 5 } }

/-- A store holding only `paidOrder`. -/

def paidDb : DB :=
  { products := [], carts := [], cartItems := [], orders := [paidOrder], orderItems := [] }

/-- An empty store. -/

def emptyDb : DB := { products := [], carts := [], cartItems := [], orders := [], orderItems := [] }

/-- The cart (id 1, owner 1) of `staleDb`, whose stored total 10 is stale. -/

def staleCart : Cart := { id := 1, sessionId := 1, total := 10 }

/-- A store whose only cart holds one item (quantity 2) of a product whose
live price is 4, so the live total 8 differs from the stored total 10. -/

def staleDb : DB :=
  { products := [{ id := 5, name := "Drum", price := 4, stockQuantity := 9, isPublished := true }],
    carts := [staleCart],
    cartItems := [{ id := 2, cartId := 1, productId := 5, quantity := 2, price := 3 }],
    orders := [], orderItems := [] }

/-- Claimed invariant: the persisted cart total equals the sum of
quantity × stored item price over the cart's items. -/

def storedInv (db : DB) (cid : Nat) : Prop :=
  (findCart db cid).map Cart.total = some (storedTotal db cid)

/-- The invariant the user-variant handlers actually maintain: the persisted
cart total equals the sum of quantity × live product price. -/

def liveInv (db : DB) (cid : Nat) : Prop :=
  (findCart db cid).map Cart.total = some (liveTotal db cid)

/-- The cart item of `driftDb`: quantity 1 at a stored snapshot price 10. -/

def driftItem : CartItem := { id := 3, cartId := 7, productId := 1, quantity := 1, price := 10 }

/-- The cart of `driftDb`. -/

def driftCart : Cart := { id := 7, sessionId := 7, total := 10 }

/-- The product of `driftDb`: its live price 12 has drifted away from the
snapshot 10 stored in `driftItem`. -/

def driftProd : Product :=
  { id := 1, name := "Mask", price := 12, stockQuantity := 5, isPublished := true }

/-- A store where a cart item's stored snapshot price (10) no longer matches
the product's live price (12). -/

def driftDb : DB :=
  { products := [driftProd], carts := [driftCart], cartItems := [driftItem],
    orders := [], orderItems := [] }

/-- A published product that is out of stock. -/

def zeroStockProd : Product :=
  { id := 2, name := "Pot", price := 10, stockQuantity := 0, isPublished := true }

/-- The empty cart of `zeroStockDb`. -/

def zeroStockCart : Cart := { id := 1, sessionId := 1, total := 0 }

/-- A store with an empty cart and an out-of-stock product. -/

def zeroStockDb : DB :=
  { products := [zeroStockProd], carts := [zeroStockCart], cartItems := [],
    orders := [], orderItems := [] }

/-- The product of `cumulDb`, with 5 units of stock. -/

def cumulProd : Product :=
  { id := 2, name := "Pot", price := 10, stockQuantity := 5, isPublished := true }

/-- The cart of `cumulDb` (owned by user 1). -/

def cumulCart : Cart := { id := 1, sessionId := 1, total := 40 }

/-- The existing line item of `cumulDb`: 4 units already in the cart. -/

def cumulItem : CartItem := { id := 4, cartId := 1, productId := 2, quantity := 4, price := 10 }

/-- A store where 4 of the product's 5 units are already in the cart. -/

def cumulDb : DB :=
  { products := [cumulProd], carts := [cumulCart], cartItems := [cumulItem],
    orders := [], orderItems := [] }

/-- The product of `freshDb`, live price 15. -/

def freshProd : Product :=
  { id := 3, name := "Stool", price := 15, stockQuantity := 9, isPublished := true }

/-- The empty cart of `freshDb` (owned by user 1). -/

def freshCart : Cart := { id := 1, sessionId := 1, total := 0 }

/-- A store with an empty cart and one in-stock product, used to exercise the
new-line-item paths. -/

def freshDb : DB :=
  { products := [freshProd], carts := [freshCart], cartItems := [],
    orders := [], orderItems := [] }

/-- A product with 10 units of stock, referenced by the C4 witness order. -/

def roundProdA : Product :=
  { id := 11, name := "Shield", price := 30, stockQuantity := 10, isPublished := true }

/-- A second product with 4 units of stock. -/

def roundProdB : Product :=
  { id := 12, name := "Spear", price := 20, stockQuantity := 4, isPublished := true }

/-- A catalog-only store for the placement/cancellation round trip. -/

def roundDb : DB :=
  { products := [roundProdA, roundProdB], carts := [], cartItems := [],
    orders := [], orderItems := [] }

/-! ## General helper lemmas -/

/-- A row update that does not disturb the search predicate commutes with
`find?`. -/

theorem find?_map_self {α : Type} (f : α → α) (p : α → Bool) (l : List α)
    (hp : ∀ a, p (f a) = p a) : (l.map f).find? p = (l.find? p).map f := by
  rw [List.find?_map]
  have h : p ∘ f = p := funext hp
  rw [h]

/-- A row update that does not disturb the filter predicate commutes with
`filter`. -/

theorem filter_map_self {α : Type} (f : α → α) (p : α → Bool) (l : List α)
    (hp : ∀ a, p (f a) = p a) : (l.map f).filter p = (l.filter p).map f := by
  induction l with
  | nil => rfl
  | cons a t ih =>
    simp only [List.map_cons, List.filter_cons, hp a]
    cases h : p a <;> simp [ih]

/-- Lemma: `setCartTotal` rewrites only the addressed cart's total. -/

theorem findCart_setCartTotal (db : DB) (cid : Nat) (t : ℚ) (c : Cart)
    (hc : findCart db cid = some c) :
    findCart (setCartTotal db cid t) cid = some { c with total := t } := by
  unfold findCart setCartTotal at *
  rw [find?_map_self _ _ _ (fun a => by cases h : (a.id == cid) <;> simp [h]), hc]
  have hbeq := List.find?_some hc
  simp only [Option.map_some']
  rw [if_pos hbeq]

/-- Lemma: `setCartTotal` leaves the item rows untouched, so the stored-price sum is
unaffected. -/

theorem storedTotal_setCartTotal (db : DB) (cid cid' : Nat) (t : ℚ) :
    storedTotal (setCartTotal db cid t) cid' = storedTotal db cid' := rfl

/-- Lemma: `setCartTotal` leaves item and product rows untouched, so the live-price
sum is unaffected. -/

theorem liveTotal_setCartTotal (db : DB) (cid cid' : Nat) (t : ℚ) :
    liveTotal (setCartTotal db cid t) cid' = liveTotal db cid' := rfl

/-- After the session-variant `updateCartTotal`, the persisted total of the
addressed (existing) cart equals the stored-price sum over its items. -/

theorem updateCartTotal_inv (db : DB) (cid : Nat) (c : Cart)
    (hc : findCart db cid = some c) :
    (findCart (SessionCart.updateCartTotal db cid) cid).map Cart.total
      = some (storedTotal (SessionCart.updateCartTotal db cid) cid) := by
  unfold SessionCart.updateCartTotal
  rw [findCart_setCartTotal db cid _ c hc]
  rfl

/-- After persisting the live-price sum as the total, the addressed
(existing) cart carries exactly that sum. -/

theorem setCartTotal_live_inv (db : DB) (cid : Nat) (c : Cart)
    (hc : findCart db cid = some c) :
    (findCart (setCartTotal db cid (liveTotal db cid)) cid).map Cart.total
      = some (liveTotal (setCartTotal db cid (liveTotal db cid)) cid) := by
  rw [findCart_setCartTotal db cid _ c hc]
  rfl

/-- Deleting every item of a cart empties its item set. -/

theorem itemsOfCart_clear (db : DB) (cid : Nat) :
    itemsOfCart { db with cartItems := db.cartItems.filter (fun it => it.cartId != cid) } cid
      = [] := by
  unfold itemsOfCart
  simp only [List.filter_filter]
  rw [List.filter_eq_nil_iff.mpr]
  intro a _
  cases h : (a.cartId == cid) <;> simp [h, bne]

/-! ## Claims C2, C5, C6 — payment reconciliation -/

/-- C2 (counterexample): the claim says a Confirm delivery for an
already-paid order's token is a no-op leaving isPaid, paidAt, status and
paymentResult unchanged.  On `paidDb` (isPaid = true, paidAt = 5,
status = SHIPPED) a Confirm for token 77 at time 9 rewrites paidAt to 9 and
resets the status to PROCESSING, so the state is not left unchanged. -/

theorem c2_confirm_overwrites_paid_order :
    (Paypal.handlePaypalConfirmation paidDb (some 77)
        (some { captureId := 30, captureStatus := "COMPLETED", updateTime := 9 }) 9).db ≠ paidDb ∧
    (Paypal.findOrder (Paypal.handlePaypalConfirmation paidDb (some 77)
        (some { captureId := 30, captureStatus := "COMPLETED", updateTime := 9 }) 9).db 1).map
        Order.paidAt = some (some 9) ∧
    (Paypal.findOrder (Paypal.handlePaypalConfirmation paidDb (some 77)
        (some { captureId := 30, captureStatus := "COMPLETED", updateTime := 9 }) 9).db 1).map
        Order.status = some OrderStatus.PROCESSING ∧
    (Paypal.findOrder paidDb 1).map Order.paidAt = some (some 5) ∧
    (Paypal.findOrder paidDb 1).map Order.status = some OrderStatus.SHIPPED := by
  refine ⟨by decide, by decide, by decide, by decide, by decide⟩

/-- C2 (amended): only the Webhook entry point is idempotent on an
already-paid order — it leaves the store unchanged and acknowledges with 200;
the Confirm entry point carries no isPaid guard and overwrites paidAt,
status and paymentResult (see the counterexample). -/

theorem c2_webhook_idempotent (db : DB) (ev : Paypal.WebhookEvent) (now poid : Nat)
    (order : Order) (hev : ev.eventType = "PAYMENT.CAPTURE.COMPLETED")
    (hrel : ev.relatedOrderId = some poid)
    (hfind : Paypal.findOrderByProviderId db poid = some order)
    (hpaid : order.isPaid = true) :
    Paypal.handlePaypalWebhook db ev now = ⟨db, .okJson⟩ := by
  unfold Paypal.handlePaypalWebhook
  simp [hev, hrel, hfind, hpaid]

/-- C2 witness: a second Webhook delivery for the paid order of `paidDb`
is accepted and changes nothing. -/

theorem c2_webhook_idempotent_witness :
    Paypal.handlePaypalWebhook paidDb
      { eventType := "PAYMENT.CAPTURE.COMPLETED", resourceId := 3, relatedOrderId := some 77 } 9 =
      ⟨paidDb, .okJson⟩ :=
  c2_webhook_idempotent paidDb _ 9 77 paidOrder rfl rfl (by decide) (by decide)

/-- C5: the Initiate guards — a missing order yields NotFound, a foreign
order Forbidden, an already-paid order AlreadyPaid; in each case the store is
returned unchanged and the provider is never called. -/

theorem c5_initiate_guards :
    (∀ db callerId orderId provider, Paypal.findOrder db orderId = none →
        Paypal.initiatePaypalPayment db callerId orderId provider = ⟨db, .notFound, false⟩) ∧
    (∀ db callerId orderId provider order, Paypal.findOrder db orderId = some order →
        order.userId ≠ callerId →
        Paypal.initiatePaypalPayment db callerId orderId provider = ⟨db, .forbidden, false⟩) ∧
    (∀ db callerId orderId provider order, Paypal.findOrder db orderId = some order →
        order.userId = callerId → order.isPaid = true →
        Paypal.initiatePaypalPayment db callerId orderId provider = ⟨db, .alreadyPaid, false⟩) := by
  refine ⟨?_, ?_, ?_⟩
  · intro db callerId orderId provider h
    unfold Paypal.initiatePaypalPayment
    simp [h]
  · intro db callerId orderId provider order h hne
    unfold Paypal.initiatePaypalPayment
    simp [h, hne]
  · intro db callerId orderId provider order h heq hpaid
    unfold Paypal.initiatePaypalPayment
    simp [h, heq, hpaid]

/-- C5 witness: the three guards on concrete stores — order 999 missing from
`payDb`, order 1 of `payDb` not owned by caller 2, order 1 of `paidDb`
already paid. -/

theorem c5_initiate_guards_witness :
    Paypal.initiatePaypalPayment payDb 1 999 none = ⟨payDb, .notFound, false⟩ ∧
    Paypal.initiatePaypalPayment payDb 2 1 none = ⟨payDb, .forbidden, false⟩ ∧
    Paypal.initiatePaypalPayment paidDb 1 1 none = ⟨paidDb, .alreadyPaid, false⟩ :=
  ⟨c5_initiate_guards.1 payDb 1 999 none (by decide),
   c5_initiate_guards.2.1 payDb 2 1 none payOrder (by decide) (by decide),
   c5_initiate_guards.2.2 paidDb 1 1 none paidOrder (by decide) (by decide) (by decide)⟩

/-- C6 (counterexample): the claim says every webhook delivery is
acknowledged with an HTTP 200-equivalent success response regardless of its
content.  A PAYMENT.CAPTURE.COMPLETED event whose resource carries no
related order id is answered with the 400 branch, not 200. -/

theorem c6_webhook_400_on_missing_order_id :
    (Paypal.handlePaypalWebhook emptyDb
        { eventType := "PAYMENT.CAPTURE.COMPLETED", resourceId := 5, relatedOrderId := none }
        0).resp = .missingOrderId ∧
    Resp.httpStatus .missingOrderId = 400 ∧
    (Paypal.handlePaypalWebhook emptyDb
        { eventType := "PAYMENT.CAPTURE.COMPLETED", resourceId := 5, relatedOrderId := none }
        0).resp.httpStatus ≠ 200 := by
  refine ⟨by decide, by decide, by decide⟩

/-- C6 (amended): the webhook handler acts only on PAYMENT.CAPTURE.COMPLETED
events; every other event type is accepted and ignored — store unchanged,
acknowledged with the 200 branch.  Capture-completed deliveries, however,
can be answered 400 (missing order id in the payload) or 404 (no matching
order), so the acknowledgement is not 200 regardless of content. -/

theorem c6_webhook_ignores_other_events (db : DB) (ev : Paypal.WebhookEvent) (now : Nat)
    (hne : ev.eventType ≠ "PAYMENT.CAPTURE.COMPLETED") :
    Paypal.handlePaypalWebhook db ev now = ⟨db, .okJson⟩ ∧
    Resp.httpStatus .okJson = 200 := by
  constructor
  · unfold Paypal.handlePaypalWebhook
    simp [hne]
  · rfl

/-! ## Claim C10 — cart fetch writes back the recomputed total -/

/-- C10: fetching the user's cart is not read-only — whenever the stored
total differs from the sum of quantity times live product price, the fetch
persists the freshly computed total on the cart before returning. -/

theorem c10_getUserCart_persists (db : DB) (userId : Nat) (cart : Cart)
    (hc : findCart db userId = some cart)
    (hne : cart.total ≠ liveTotal db userId) :
    (findCart (UserCart.getUserCart db userId).db userId).map Cart.total
      = some (liveTotal db userId) ∧
    (UserCart.getUserCart db userId).db ≠ db := by
  have hid : cart.id = userId := by
    have h := List.find?_some hc
    simpa using h
  have hstep : UserCart.getUserCart db userId =
      ⟨setCartTotal db cart.id (liveTotal db cart.id), .okCart⟩ := by
    unfold UserCart.getUserCart
    rw [hc]
    simp only
    rw [if_neg (by rw [hid]; exact hne)]
  rw [hid] at hstep
  have h2 := findCart_setCartTotal db userId (liveTotal db userId) cart hc
  constructor
  · rw [hstep]
    simp only
    rw [h2]
    rfl
  · rw [hstep]
    simp only
    intro heq
    rw [heq, hc] at h2
    have h3 : cart = { cart with total := liveTotal db userId } := by
      exact Option.some.inj h2
    have h4 := congrArg Cart.total h3
    exact hne h4

/-- C10 witness: on `staleDb` (stored total 10, live total 8) the fetch
persists 8 and changes the store. -/

theorem c10_getUserCart_persists_witness :
    (findCart (UserCart.getUserCart staleDb 1).db 1).map Cart.total = some 8 ∧
    (UserCart.getUserCart staleDb 1).db ≠ staleDb := by
  have hlive : liveTotal staleDb 1 = 8 := by
    norm_num [liveTotal, livePrice, itemsOfCart, findProduct, staleDb, List.filter, List.find?]
  have h := c10_getUserCart_persists staleDb 1 staleCart (by decide)
    (by rw [hlive]; norm_num [staleCart])
  refine ⟨?_, h.2⟩
  rw [h.1, hlive]

/-! ## Claim C1 — the cart-total invariant -/

/-- C1 (counterexample): the claim says that after any cart-mutating
operation the persisted total equals Σ quantity × stored item price.  On
`driftDb`, updating the item's quantity to 2 through the user-variant
handler persists 2 × 12 = 24 (live product price), while
Σ quantity × stored price = 2 × 10 = 20, so the claimed invariant fails
even under exact arithmetic. -/

theorem c1_total_uses_live_price_cex :
    (findCart (UserCart.updateCartItem driftDb 7 3 2).db 7).map Cart.total = some 24 ∧
    storedTotal (UserCart.updateCartItem driftDb 7 3 2).db 7 = 20 ∧
    ¬ storedInv (UserCart.updateCartItem driftDb 7 3 2).db 7 := by
  have hr : UserCart.updateCartItem driftDb 7 3 2 =
      ⟨setCartTotal (setItemQuantity driftDb 3 2) 7 (liveTotal (setItemQuantity driftDb 3 2) 7),
       .okCart⟩ := by
    unfold UserCart.updateCartItem
    norm_num [findCartItem, findCart, findProduct, driftDb, driftItem, driftCart, driftProd,
      List.find?]
  have hlive : liveTotal (setItemQuantity driftDb 3 2) 7 = 24 := by
    norm_num [liveTotal, livePrice, itemsOfCart, findProduct, setItemQuantity, driftDb,
      driftItem, driftCart, driftProd, List.find?, List.filter]
  have hstored : storedTotal (UserCart.updateCartItem driftDb 7 3 2).db 7 = 20 := by
    rw [hr]
    norm_num [storedTotal, itemsOfCart, setCartTotal, setItemQuantity, driftDb, driftItem,
      List.filter]
  have h24 : (findCart (UserCart.updateCartItem driftDb 7 3 2).db 7).map Cart.total
      = some 24 := by
    rw [hr]
    have hfc := findCart_setCartTotal (setItemQuantity driftDb 3 2) 7
      (liveTotal (setItemQuantity driftDb 3 2) 7) driftCart (by decide)
    simp only at hfc ⊢
    rw [hfc, hlive]
    rfl
  refine ⟨h24, hstored, ?_⟩
  intro hinv
  unfold storedInv at hinv
  rw [hstored, h24] at hinv
  have h2024 : (24 : ℚ) = 20 := by injection hinv
  norm_num at h2024

/-- C1 (amended): after each cart-mutating operation completes on an
existing cart, the persisted total equals Σ quantity × price — where the
session-variant operations use the stored item price and the user-variant
operations use the live product price (clearing a cart persists exactly 0,
which coincides with both sums over the then-empty item set). -/

theorem c1_cart_total_invariant :
    (∀ db cid pid q pr fid c product, 0 < q → findCart db cid = some c →
        findProduct db pid = some product →
        storedInv (SessionCart.addItemToCart db cid pid q pr fid).db cid) ∧
    (∀ db itemId q it c, 0 ≤ q → findCartItem db itemId = some it →
        findCart db it.cartId = some c →
        storedInv (SessionCart.updateCartItem db itemId (some q)).db it.cartId) ∧
    (∀ db itemId it c, findCartItem db itemId = some it →
        findCart db it.cartId = some c →
        storedInv (SessionCart.removeCartItem db itemId).db it.cartId) ∧
    (∀ db cid c, findCart db cid = some c →
        storedInv (SessionCart.clearCart db cid).db cid) ∧
    (∀ db userId pid q fc fi cart product, findProduct db pid = some product →
        product.isPublished = true → ¬ product.stockQuantity < q →
        findCart db userId = some cart →
        liveInv (UserCart.addItemToCart db userId pid q fc fi).db cart.id ∨
          (UserCart.addItemToCart db userId pid q fc fi).db = db) ∧
    (∀ db userId itemId q it cart product, 1 ≤ q → findCartItem db itemId = some it →
        findCart db it.cartId = some cart → findProduct db it.productId = some product →
        cart.sessionId = userId → ¬ product.stockQuantity < q →
        liveInv (UserCart.updateCartItem db userId itemId q).db it.cartId) ∧
    (∀ db userId itemId it cart, findCartItem db itemId = some it →
        findCart db it.cartId = some cart → cart.sessionId = userId →
        liveInv (UserCart.removeCartItem db userId itemId).db it.cartId) ∧
    (∀ db userId cart, findCartBySession db userId = some cart →
        findCart db cart.id = some cart →
        liveInv (UserCart.clearCart db userId).db cart.id) := by
  refine ⟨?_, ?_, ?_, ?_, ?_, ?_, ?_, ?_⟩
  · -- session add
    intro db cid pid q pr fid c product hq hc hprod
    unfold SessionCart.addItemToCart
    rw [if_neg (by omega)]
    simp only [hc, hprod]
    unfold storedInv
    cases hex : findFirstCartItem db cid pid with
    | some ex =>
      simp only [hex]
      exact updateCartTotal_inv _ cid c hc
    | none =>
      simp only [hex]
      exact updateCartTotal_inv _ cid c hc
  · -- session update
    intro db itemId q it c hq hit hc
    simp only [SessionCart.updateCartItem]
    rw [if_neg (show ¬ q < 0 by omega)]
    simp only [hit]
    unfold storedInv
    by_cases h0 : q = 0
    · subst h0
      rw [if_pos (by decide)]
      exact updateCartTotal_inv _ it.cartId c hc
    · rw [if_neg (by simpa using h0)]
      exact updateCartTotal_inv _ it.cartId c hc
  · -- session remove
    intro db itemId it c hit hc
    unfold SessionCart.removeCartItem
    simp only [hit]
    unfold storedInv
    exact updateCartTotal_inv _ it.cartId c hc
  · -- session clear
    intro db cid c hc
    unfold SessionCart.clearCart
    simp only [hc]
    unfold storedInv
    have hc' : findCart
        { db with cartItems := db.cartItems.filter (fun it => it.cartId != cid) } cid
        = some c := hc
    rw [findCart_setCartTotal _ cid 0 c hc']
    rw [storedTotal_setCartTotal]
    unfold storedTotal
    rw [itemsOfCart_clear]
    rfl
  · -- user add
    intro db userId pid q fc fi cart product hprod hpub hstock hcart
    have hcid : cart.id = userId := by
      have h := List.find?_some hcart
      simpa using h
    unfold UserCart.addItemToCart
    simp only [hprod, hpub, Bool.not_true, Bool.false_eq_true, if_false]
    rw [if_neg hstock]
    simp only [hcart]
    cases hex : (itemsOfCart db cart.id).find? (·.productId == pid) with
    | some ex =>
      simp only [hex]
      by_cases hcum : product.stockQuantity < ex.quantity + q
      · rw [if_pos hcum]
        right
        rfl
      · rw [if_neg hcum]
        left
        unfold liveInv
        exact setCartTotal_live_inv _ cart.id cart (by rw [← hcid] at hcart; exact hcart)
    | none =>
      simp only [hex]
      left
      unfold liveInv
      exact setCartTotal_live_inv _ cart.id cart (by rw [← hcid] at hcart; exact hcart)
  · -- user update
    intro db userId itemId q it cart product hq hit hcart hprod hsess hstock
    unfold UserCart.updateCartItem
    rw [if_neg (by omega)]
    simp only [hit, hcart, hprod]
    rw [if_neg (by simp [hsess])]
    rw [if_neg hstock]
    unfold liveInv
    exact setCartTotal_live_inv _ it.cartId cart hcart
  · -- user remove
    intro db userId itemId it cart hit hcart hsess
    unfold UserCart.removeCartItem
    simp only [hit, hcart]
    rw [if_neg (by simp [hsess])]
    unfold liveInv
    exact setCartTotal_live_inv _ it.cartId cart hcart
  · -- user clear
    intro db userId cart hcart hcid
    unfold UserCart.clearCart
    simp only [hcart]
    unfold liveInv
    have hcid' : findCart
        { db with cartItems := db.cartItems.filter (fun it => it.cartId != cart.id) } cart.id
        = some cart := hcid
    rw [findCart_setCartTotal _ cart.id 0 cart hcid']
    rw [liveTotal_setCartTotal]
    unfold liveTotal
    rw [itemsOfCart_clear]
    rfl

/-- C1 witness: on `driftDb`, a session-variant add maintains the
stored-price invariant and a user-variant quantity update maintains the
live-price invariant. -/

theorem c1_cart_total_invariant_witness :
    storedInv (SessionCart.addItemToCart driftDb 7 1 2 none 50).db 7 ∧
    liveInv (UserCart.updateCartItem driftDb 7 3 2).db driftItem.cartId :=
  ⟨c1_cart_total_invariant.1 driftDb 7 1 2 none 50 driftCart driftProd
      (by decide) (by decide) (by decide),
   c1_cart_total_invariant.2.2.2.2.2.1 driftDb 7 3 2 driftItem driftCart driftProd
      (by decide) (by decide) (by decide) (by decide) (by decide) (by decide)⟩

/-! ## Claim C3 — InsufficientStock on add-item -/

/-- C3 (counterexample): the claim says every add-item request whose quantity
exceeds stockQuantity fails with InsufficientStock leaving the cart
unchanged.  The session-variant add performs no stock check at all: adding
one unit of the out-of-stock product of `zeroStockDb` succeeds with the 201
branch, creates the item row, and changes the store. -/

theorem c3_session_add_skips_stock_check :
    (SessionCart.addItemToCart zeroStockDb 1 2 1 none 99).resp = .created ∧
    (findCartItem (SessionCart.addItemToCart zeroStockDb 1 2 1 none 99).db 99).isSome = true ∧
    (SessionCart.addItemToCart zeroStockDb 1 2 1 none 99).db ≠ zeroStockDb := by
  have hr : SessionCart.addItemToCart zeroStockDb 1 2 1 none 99 =
      ⟨SessionCart.updateCartTotal
        (insertCartItem zeroStockDb
          { id := 99, cartId := 1, productId := 2, quantity := 1, price := zeroStockProd.price })
        1, .created⟩ := by
    unfold SessionCart.addItemToCart
    norm_num [findCart, findProduct, findFirstCartItem, zeroStockDb, zeroStockCart,
      zeroStockProd, List.find?]
  refine ⟨by rw [hr], by rw [hr]; rfl, ?_⟩
  intro heq
  rw [hr] at heq
  have hlen := congrArg (fun d => d.cartItems.length) heq
  simp [SessionCart.updateCartTotal, setCartTotal, insertCartItem, zeroStockDb] at hlen

/-- C3 (amended): the user-variant add enforces the stock rule — a requested
quantity above the product's stock fails with the InsufficientStock branch
before touching the store, and, for a product already in the cart, a
cumulative quantity above stock aborts the transaction leaving the store
unchanged (the session-variant add performs no stock check, see the
counterexample). -/

theorem c3_user_add_insufficient_stock :
    (∀ db userId pid q fc fi product, findProduct db pid = some product →
        product.isPublished = true → product.stockQuantity < q →
        UserCart.addItemToCart db userId pid q fc fi = ⟨db, .insufficientStock⟩) ∧
    (∀ db userId pid q fc fi product cart ex, findProduct db pid = some product →
        product.isPublished = true → ¬ product.stockQuantity < q →
        findCart db userId = some cart →
        (itemsOfCart db cart.id).find? (·.productId == pid) = some ex →
        product.stockQuantity < ex.quantity + q →
        UserCart.addItemToCart db userId pid q fc fi = ⟨db, .insufficientStock⟩) := by
  constructor
  · intro db userId pid q fc fi product hprod hpub hstock
    unfold UserCart.addItemToCart
    simp only [hprod, hpub, Bool.not_true, Bool.false_eq_true, if_false]
    rw [if_pos hstock]
  · intro db userId pid q fc fi product cart ex hprod hpub hstock hcart hex hcum
    unfold UserCart.addItemToCart
    simp only [hprod, hpub, Bool.not_true, Bool.false_eq_true, if_false]
    rw [if_neg hstock]
    simp only [hcart, hex]
    rw [if_pos hcum]

/-- C3 witness: requesting 1 unit of the out-of-stock product fails, and
requesting 2 more units on top of the 4 already in the cart (stock 5) fails,
both with the InsufficientStock branch and an unchanged store. -/

theorem c3_user_add_insufficient_stock_witness :
    UserCart.addItemToCart zeroStockDb 1 2 1 9 9 = ⟨zeroStockDb, .insufficientStock⟩ ∧
    UserCart.addItemToCart cumulDb 1 2 2 9 9 = ⟨cumulDb, .insufficientStock⟩ :=
  ⟨c3_user_add_insufficient_stock.1 zeroStockDb 1 2 1 9 9 zeroStockProd
      (by decide) (by decide) (by decide),
   c3_user_add_insufficient_stock.2 cumulDb 1 2 2 9 9 cumulProd cumulCart cumulItem
      (by decide) (by decide) (by decide) (by decide) (by decide) (by decide)⟩

/-! ## Claim C9 — update-quantity semantics -/

/-- C9 (counterexample): the claim says newQuantity == 0 behaves exactly like
remove-item (the row is deleted, the total recomputed).  The user-variant
update rejects quantity 0 with the InvalidArgument branch (`quantity < 1`)
and leaves the row in place. -/

theorem c9_user_zero_is_rejected :
    UserCart.updateCartItem driftDb 7 3 0 = ⟨driftDb, .invalidQuantity⟩ ∧
    (findCartItem (UserCart.updateCartItem driftDb 7 3 0).db 3).isSome = true := by
  have h : UserCart.updateCartItem driftDb 7 3 0 = ⟨driftDb, .invalidQuantity⟩ := by
    unfold UserCart.updateCartItem
    rw [if_pos (by omega)]
  exact ⟨h, by rw [h]; decide⟩

/-- C9 (amended): the session-variant update fails with the InvalidArgument
branch for every newQuantity < 0 and at 0 behaves exactly like remove-item
(same deletion, same total recompute, same response); the user-variant
update instead rejects every newQuantity < 1 — including 0 — with the
InvalidArgument branch. -/

theorem c9_update_quantity_semantics :
    (∀ db itemId q, q < 0 →
        SessionCart.updateCartItem db itemId (some q) = ⟨db, .invalidQuantity⟩) ∧
    (∀ db itemId,
        SessionCart.updateCartItem db itemId (some 0) = SessionCart.removeCartItem db itemId) ∧
    (∀ db userId itemId q, q < 1 →
        UserCart.updateCartItem db userId itemId q = ⟨db, .invalidQuantity⟩) := by
  refine ⟨?_, ?_, ?_⟩
  · intro db itemId q hq
    simp only [SessionCart.updateCartItem]
    rw [if_pos hq]
  · intro db itemId
    simp only [SessionCart.updateCartItem, SessionCart.removeCartItem]
    rw [if_neg (show ¬ (0 : Int) < 0 by omega)]
    cases hit : findCartItem db itemId with
    | none => simp only [hit]
    | some cartItem =>
      simp only [hit]
      rw [if_pos (by decide)]
  · intro db userId itemId q hq
    unfold UserCart.updateCartItem
    rw [if_pos hq]

/-- C9 witness: a negative quantity is rejected by the session variant, the
zero-quantity session update coincides with removal on `driftDb`, and the
user variant rejects quantity 0. -/

theorem c9_update_quantity_semantics_witness :
    SessionCart.updateCartItem driftDb 3 (some (-1)) = ⟨driftDb, .invalidQuantity⟩ ∧
    SessionCart.updateCartItem driftDb 3 (some 0) = SessionCart.removeCartItem driftDb 3 ∧
    UserCart.updateCartItem driftDb 7 3 0 = ⟨driftDb, .invalidQuantity⟩ :=
  ⟨c9_update_quantity_semantics.1 driftDb 3 (-1) (by decide),
   c9_update_quantity_semantics.2.1 driftDb 3,
   c9_update_quantity_semantics.2.2 driftDb 7 3 0 (by decide)⟩

/-! ## Claim C8 — repeated add increments the existing line item -/

/-- Updating one row's quantity rewrites that row in place: the first item
matching (cartId, productId) keeps its position with the new quantity. -/

theorem findFirst_setItemQuantity (db : DB) (cid pid iid : Nat) (q : Int) (ex : CartItem)
    (hex : findFirstCartItem db cid pid = some ex) :
    findFirstCartItem (setItemQuantity db iid q) cid pid =
      some (if ex.id == iid then { ex with quantity := q } else ex) := by
  unfold findFirstCartItem setItemQuantity at *
  rw [find?_map_self _ _ _ (fun a => by cases h : (a.id == iid) <;> simp)]
  rw [hex]
  rfl

/-- C8: adding a product already present in the cart increments that line
item's quantity by the requested amount (old + requested), creates no second
row for the product, and leaves the number of item rows unchanged — in both
the session-cart and the user-cart variant. -/

theorem c8_add_existing_increments :
    (∀ db cid pid q pr fid c product ex, 0 < q → findCart db cid = some c →
        findProduct db pid = some product → findFirstCartItem db cid pid = some ex →
        (findFirstCartItem (SessionCart.addItemToCart db cid pid q pr fid).db cid pid).map
            CartItem.quantity = some (ex.quantity + q) ∧
        (SessionCart.addItemToCart db cid pid q pr fid).db.cartItems.countP
            (fun it => it.cartId == cid && it.productId == pid) =
          db.cartItems.countP (fun it => it.cartId == cid && it.productId == pid) ∧
        (SessionCart.addItemToCart db cid pid q pr fid).db.cartItems.length =
          db.cartItems.length) ∧
    (∀ db userId pid q fc fi product cart ex, findProduct db pid = some product →
        product.isPublished = true → ¬ product.stockQuantity < q →
        findCart db userId = some cart →
        (itemsOfCart db cart.id).find? (·.productId == pid) = some ex →
        ¬ product.stockQuantity < ex.quantity + q →
        ((itemsOfCart (UserCart.addItemToCart db userId pid q fc fi).db cart.id).find?
            (·.productId == pid)).map CartItem.quantity = some (ex.quantity + q) ∧
        (UserCart.addItemToCart db userId pid q fc fi).db.cartItems.length =
          db.cartItems.length) := by
  constructor
  · intro db cid pid q pr fid c product ex hq hc hprod hex
    unfold SessionCart.addItemToCart
    rw [if_neg (by omega)]
    simp only [hc, hprod, hex]
    refine ⟨?_, ?_, ?_⟩
    · have h := findFirst_setItemQuantity db cid pid ex.id (ex.quantity + q) ex hex
      rw [beq_self_eq_true] at h
      simp only [if_pos] at h
      show (findFirstCartItem (setItemQuantity db ex.id (ex.quantity + q)) cid pid).map
        CartItem.quantity = some (ex.quantity + q)
      rw [h]
      rfl
    · show (setItemQuantity db ex.id (ex.quantity + q)).cartItems.countP _ = _
      unfold setItemQuantity
      simp only [List.countP_map]
      apply List.countP_congr
      intro a _
      cases h : (a.id == ex.id) <;> simp [Function.comp, h]
    · show (setItemQuantity db ex.id (ex.quantity + q)).cartItems.length = _
      unfold setItemQuantity
      simp [List.length_map]
  · intro db userId pid q fc fi product cart ex hprod hpub hstock hcart hex hcum
    unfold UserCart.addItemToCart
    simp only [hprod, hpub, Bool.not_true, Bool.false_eq_true, if_false]
    rw [if_neg hstock]
    simp only [hcart, hex]
    rw [if_neg hcum]
    constructor
    · show ((itemsOfCart (setCartTotal (setItemQuantity db ex.id (ex.quantity + q)) cart.id
          (liveTotal (setItemQuantity db ex.id (ex.quantity + q)) cart.id)) cart.id).find?
          (·.productId == pid)).map CartItem.quantity = some (ex.quantity + q)
      unfold itemsOfCart setItemQuantity setCartTotal at *
      simp only
      rw [filter_map_self _ _ _ (fun a => by cases h : (a.id == ex.id) <;> simp)]
      rw [find?_map_self _ _ _ (fun a => by cases h : (a.id == ex.id) <;> simp)]
      rw [hex]
      have hself : (ex.id == ex.id) = true := beq_self_eq_true ex.id
      simp [hself]
    · show (setCartTotal (setItemQuantity db ex.id (ex.quantity + q)) cart.id
          (liveTotal (setItemQuantity db ex.id (ex.quantity + q)) cart.id)).cartItems.length = _
      unfold setCartTotal setItemQuantity
      simp [List.length_map]

/-- C8 witness: on `driftDb` (one unit of product 1 in cart 7), adding 2 more
through either variant leaves a single row with quantity 3. -/

theorem c8_add_existing_increments_witness :
    (findFirstCartItem (SessionCart.addItemToCart driftDb 7 1 2 none 50).db 7 1).map
        CartItem.quantity = some 3 ∧
    (SessionCart.addItemToCart driftDb 7 1 2 none 50).db.cartItems.length = 1 ∧
    ((itemsOfCart (UserCart.addItemToCart driftDb 7 1 2 9 9).db 7).find?
        (·.productId == 1)).map CartItem.quantity = some 3 := by
  have h1 := (c8_add_existing_increments.1 driftDb 7 1 2 none 50 driftCart driftProd driftItem
    (by decide) (by decide) (by decide) (by decide))
  have h2 := (c8_add_existing_increments.2 driftDb 7 1 2 9 9 driftProd driftCart driftItem
    (by decide) (by decide) (by decide) (by decide) (by decide) (by decide))
  refine ⟨?_, ?_, ?_⟩
  · rw [h1.1]; rfl
  · rw [h1.2.2]; decide
  · have h := h2.1
    simp only [show driftCart.id = 7 from rfl] at h
    rw [h]; rfl

/-! ## Claim C7 — price snapshots -/

/-- Row-quantity updates never touch a row's stored price. -/

theorem findCartItem_price_setItemQuantity (db : DB) (iid0 : Nat) (q : Int) (iid : Nat)
    (pit : CartItem) (h : findCartItem db iid = some pit) :
    (findCartItem (setItemQuantity db iid0 q) iid).map CartItem.price = some pit.price := by
  unfold findCartItem setItemQuantity at *
  rw [find?_map_self _ _ _ (fun a => by cases hh : (a.id == iid0) <;> simp)]
  rw [h]
  simp only [Option.map_some', Option.some.injEq]
  split <;> rfl

/-- A freshly inserted row is found by its (fresh) id and carries the price
it was created with; persisting a total afterwards does not disturb it. -/

theorem findCartItem_price_insert (db : DB) (it : CartItem) (t : ℚ) (cid : Nat)
    (hfresh : findCartItem db it.id = none) :
    (findCartItem (setCartTotal (insertCartItem db it) cid t) it.id).map CartItem.price
      = some it.price := by
  unfold findCartItem setCartTotal insertCartItem at *
  simp only
  rw [List.find?_append, hfresh]
  simp [List.find?]

/-- C7 (counterexample): the claim says a newly created line item's stored
price is snapshotted from the product's current price.  The session-variant
add accepts a client-supplied body price (`price || product.price`): adding
the product of `zeroStockDb` (live price 10) with body price 99 stores 99. -/

theorem c7_client_price_overrides_snapshot :
    (findCartItem (SessionCart.addItemToCart zeroStockDb 1 2 1 (some 99) 50).db 50).map
        CartItem.price = some 99 ∧
    (findProduct zeroStockDb 2).map Product.price = some 10 ∧
    (99 : ℚ) ≠ 10 := by
  have hr : SessionCart.addItemToCart zeroStockDb 1 2 1 (some 99) 50 =
      ⟨SessionCart.updateCartTotal
        (insertCartItem zeroStockDb
          { id := 50, cartId := 1, productId := 2, quantity := 1, price := 99 })
        1, .created⟩ := by
    unfold SessionCart.addItemToCart
    norm_num [findCart, findProduct, findFirstCartItem, zeroStockDb, zeroStockCart,
      zeroStockProd, List.find?]
  refine ⟨by rw [hr]; rfl, rfl, by norm_num⟩

/-- C7 (amended): a newly created line item snapshots the product's current
price only when the session-variant request carries no (or a zero) body
price — a nonzero client-supplied price is stored instead; the user-variant
add always snapshots the product's current price; and the stored price of
existing cart items is never changed by any later operation: update,
remove, clear, the cart fetch, and add (which at most appends one fresh
row) all leave every surviving item row with the id and price it already
had — in particular, prices are not refreshed when the product's price
changes. -/

theorem c7_price_snapshot :
    (∀ db cid pid q fid c product, 0 < q → findCart db cid = some c →
        findProduct db pid = some product → findFirstCartItem db cid pid = none →
        findCartItem db fid = none →
        (findCartItem (SessionCart.addItemToCart db cid pid q none fid).db fid).map
          CartItem.price = some product.price) ∧
    (∀ db cid pid q p fid c product, 0 < q → p ≠ 0 → findCart db cid = some c →
        findProduct db pid = some product → findFirstCartItem db cid pid = none →
        findCartItem db fid = none →
        (findCartItem (SessionCart.addItemToCart db cid pid q (some p) fid).db fid).map
          CartItem.price = some p) ∧
    (∀ db userId pid q fc fi product cart, findProduct db pid = some product →
        product.isPublished = true → ¬ product.stockQuantity < q →
        findCart db userId = some cart →
        (itemsOfCart db cart.id).find? (·.productId == pid) = none →
        findCartItem db fi = none →
        (findCartItem (UserCart.addItemToCart db userId pid q fc fi).db fi).map
          CartItem.price = some product.price) ∧
    (∀ db itemId q iid pit, 0 < q → findCartItem db iid = some pit →
        (findCartItem (SessionCart.updateCartItem db itemId (some q)).db iid).map
          CartItem.price = some pit.price) ∧
    (∀ db userId itemId q it cart product iid pit, 1 ≤ q →
        findCartItem db itemId = some it → findCart db it.cartId = some cart →
        findProduct db it.productId = some product → cart.sessionId = userId →
        ¬ product.stockQuantity < q → findCartItem db iid = some pit →
        (findCartItem (UserCart.updateCartItem db userId itemId q).db iid).map
          CartItem.price = some pit.price) ∧
    (∀ db cid pid q pr fid c product ex iid pit, 0 < q → findCart db cid = some c →
        findProduct db pid = some product → findFirstCartItem db cid pid = some ex →
        findCartItem db iid = some pit →
        (findCartItem (SessionCart.addItemToCart db cid pid q pr fid).db iid).map
          CartItem.price = some pit.price) ∧
    (∀ db userId pid q fc fi product cart ex iid pit, findProduct db pid = some product →
        product.isPublished = true → ¬ product.stockQuantity < q →
        findCart db userId = some cart →
        (itemsOfCart db cart.id).find? (·.productId == pid) = some ex →
        ¬ product.stockQuantity < ex.quantity + q → findCartItem db iid = some pit →
        (findCartItem (UserCart.addItemToCart db userId pid q fc fi).db iid).map
          CartItem.price = some pit.price) ∧
    (∀ db itemId q it', it' ∈ (SessionCart.updateCartItem db itemId q).db.cartItems →
        ∃ it ∈ db.cartItems, it'.id = it.id ∧ it'.price = it.price) ∧
    (∀ db itemId it', it' ∈ (SessionCart.removeCartItem db itemId).db.cartItems →
        ∃ it ∈ db.cartItems, it'.id = it.id ∧ it'.price = it.price) ∧
    (∀ db cid it', it' ∈ (SessionCart.clearCart db cid).db.cartItems →
        ∃ it ∈ db.cartItems, it'.id = it.id ∧ it'.price = it.price) ∧
    (∀ db userId itemId q it', it' ∈ (UserCart.updateCartItem db userId itemId q).db.cartItems →
        ∃ it ∈ db.cartItems, it'.id = it.id ∧ it'.price = it.price) ∧
    (∀ db userId itemId it', it' ∈ (UserCart.removeCartItem db userId itemId).db.cartItems →
        ∃ it ∈ db.cartItems, it'.id = it.id ∧ it'.price = it.price) ∧
    (∀ db userId it', it' ∈ (UserCart.clearCart db userId).db.cartItems →
        ∃ it ∈ db.cartItems, it'.id = it.id ∧ it'.price = it.price) ∧
    (∀ db userId, (UserCart.getUserCart db userId).db.cartItems = db.cartItems) ∧
    (∀ db cid pid q pr fid it',
        it' ∈ (SessionCart.addItemToCart db cid pid q pr fid).db.cartItems →
        (∃ it ∈ db.cartItems, it'.id = it.id ∧ it'.price = it.price) ∨ it'.id = fid) ∧
    (∀ db userId pid q fc fi it',
        it' ∈ (UserCart.addItemToCart db userId pid q fc fi).db.cartItems →
        (∃ it ∈ db.cartItems, it'.id = it.id ∧ it'.price = it.price) ∨ it'.id = fi) := by
  refine ⟨?_, ?_, ?_, ?_, ?_, ?_, ?_, ?_, ?_, ?_, ?_, ?_, ?_, ?_, ?_, ?_⟩
  · intro db cid pid q fid c product hq hc hprod hex hfresh
    unfold SessionCart.addItemToCart
    rw [if_neg (by omega)]
    simp only [hc, hprod, hex]
    unfold SessionCart.updateCartTotal
    exact findCartItem_price_insert db ⟨fid, cid, pid, q, product.price⟩ _ cid hfresh
  · intro db cid pid q p fid c product hq hp hc hprod hex hfresh
    unfold SessionCart.addItemToCart
    rw [if_neg (by omega)]
    simp only [hc, hprod, hex]
    rw [if_neg hp]
    unfold SessionCart.updateCartTotal
    exact findCartItem_price_insert db ⟨fid, cid, pid, q, p⟩ _ cid hfresh
  · intro db userId pid q fc fi product cart hprod hpub hstock hcart hex hfresh
    unfold UserCart.addItemToCart
    simp only [hprod, hpub, Bool.not_true, Bool.false_eq_true, if_false]
    rw [if_neg hstock]
    simp only [hcart, hex]
    exact findCartItem_price_insert db ⟨fi, cart.id, pid, q, product.price⟩ _ cart.id hfresh
  · intro db itemId q iid pit hq hpit
    simp only [SessionCart.updateCartItem]
    rw [if_neg (show ¬ q < 0 by omega)]
    cases hit : findCartItem db itemId with
    | none => simp only [hit]; rw [hpit]; rfl
    | some cartItem =>
      simp only [hit]
      rw [if_neg (by simpa using (show q ≠ 0 by omega))]
      exact findCartItem_price_setItemQuantity _ itemId q iid pit hpit
  · intro db userId itemId q it cart product iid pit hq hit hcart hprod hsess hstock hpit
    unfold UserCart.updateCartItem
    rw [if_neg (by omega)]
    simp only [hit, hcart, hprod]
    rw [if_neg (by simp [hsess])]
    rw [if_neg hstock]
    exact findCartItem_price_setItemQuantity _ itemId q iid pit hpit
  · intro db cid pid q pr fid c product ex iid pit hq hc hprod hex hpit
    unfold SessionCart.addItemToCart
    rw [if_neg (by omega)]
    simp only [hc, hprod, hex]
    exact findCartItem_price_setItemQuantity _ ex.id (ex.quantity + q) iid pit hpit
  · intro db userId pid q fc fi product cart ex iid pit hprod hpub hstock hcart hex hcum hpit
    unfold UserCart.addItemToCart
    simp only [hprod, hpub, Bool.not_true, Bool.false_eq_true, if_false]
    rw [if_neg hstock]
    simp only [hcart, hex]
    rw [if_neg hcum]
    exact findCartItem_price_setItemQuantity _ ex.id (ex.quantity + q) iid pit hpit
  · intro db itemId q it' hmem
    unfold SessionCart.updateCartItem at hmem
    repeat' split at hmem
    all_goals
      first
      | exact ⟨it', hmem, rfl, rfl⟩
      | exact ⟨it', List.mem_of_mem_filter hmem, rfl, rfl⟩
      | (obtain ⟨a, ha, rfl⟩ := List.mem_map.mp hmem
         exact ⟨a, ha, by split <;> rfl, by split <;> rfl⟩)
  · intro db itemId it' hmem
    unfold SessionCart.removeCartItem at hmem
    repeat' split at hmem
    all_goals
      first
      | exact ⟨it', hmem, rfl, rfl⟩
      | exact ⟨it', List.mem_of_mem_filter hmem, rfl, rfl⟩
  · intro db cid it' hmem
    unfold SessionCart.clearCart at hmem
    repeat' split at hmem
    all_goals
      first
      | exact ⟨it', hmem, rfl, rfl⟩
      | exact ⟨it', List.mem_of_mem_filter hmem, rfl, rfl⟩
  · intro db userId itemId q it' hmem
    unfold UserCart.updateCartItem at hmem
    repeat' split at hmem
    all_goals
      first
      | exact ⟨it', hmem, rfl, rfl⟩
      | (obtain ⟨a, ha, rfl⟩ := List.mem_map.mp hmem
         exact ⟨a, ha, by split <;> rfl, by split <;> rfl⟩)
  · intro db userId itemId it' hmem
    unfold UserCart.removeCartItem at hmem
    repeat' split at hmem
    all_goals
      first
      | exact ⟨it', hmem, rfl, rfl⟩
      | exact ⟨it', List.mem_of_mem_filter hmem, rfl, rfl⟩
  · intro db userId it' hmem
    unfold UserCart.clearCart at hmem
    repeat' split at hmem
    all_goals
      first
      | exact ⟨it', hmem, rfl, rfl⟩
      | exact ⟨it', List.mem_of_mem_filter hmem, rfl, rfl⟩
  · intro db userId
    unfold UserCart.getUserCart
    cases hfind : findCart db userId with
    | none => rfl
    | some cart =>
      simp only [hfind]
      by_cases h : cart.total = liveTotal db cart.id
      · rw [if_pos h]
      · rw [if_neg h]
        rfl
  · intro db cid pid q pr fid it' hmem
    unfold SessionCart.addItemToCart at hmem
    repeat' split at hmem
    all_goals
      first
      | exact Or.inl ⟨it', hmem, rfl, rfl⟩
      | (obtain ⟨a, ha, rfl⟩ := List.mem_map.mp hmem
         exact Or.inl ⟨a, ha, by split <;> rfl, by split <;> rfl⟩)
      | (rcases List.mem_append.mp hmem with h | h
         · exact Or.inl ⟨it', h, rfl, rfl⟩
         · rw [List.mem_singleton] at h
           subst h
           exact Or.inr rfl)
  · intro db userId pid q fc fi it' hmem
    unfold UserCart.addItemToCart at hmem
    simp only at hmem
    repeat' split at hmem
    all_goals
      first
      | exact Or.inl ⟨it', hmem, rfl, rfl⟩
      | (obtain ⟨a, ha, rfl⟩ := List.mem_map.mp hmem
         exact Or.inl ⟨a, ha, by split <;> rfl, by split <;> rfl⟩)
      | (rcases List.mem_append.mp hmem with h | h
         · exact Or.inl ⟨it', h, rfl, rfl⟩
         · rw [List.mem_singleton] at h
           subst h
           exact Or.inr rfl)

/-- C7 witness: both add variants snapshot the live price 15 on `freshDb`,
a session quantity update on `driftDb` leaves the stored price 10 alone,
and removal and the cart fetch on `driftDb` preserve every surviving row's
id and price. -/

theorem c7_price_snapshot_witness :
    (findCartItem (SessionCart.addItemToCart freshDb 1 3 1 none 60).db 60).map
        CartItem.price = some freshProd.price ∧
    (findCartItem (UserCart.addItemToCart freshDb 1 3 1 9 60).db 60).map
        CartItem.price = some freshProd.price ∧
    (findCartItem (SessionCart.updateCartItem driftDb 3 (some 2)).db 3).map
        CartItem.price = some driftItem.price ∧
    (∀ it' ∈ (SessionCart.removeCartItem driftDb 3).db.cartItems,
        ∃ it ∈ driftDb.cartItems, it'.id = it.id ∧ it'.price = it.price) ∧
    (UserCart.getUserCart driftDb 7).db.cartItems = driftDb.cartItems :=
  ⟨c7_price_snapshot.1 freshDb 1 3 1 60 freshCart freshProd
      (by decide) (by decide) (by decide) (by decide) (by decide),
   c7_price_snapshot.2.2.1 freshDb 1 3 1 9 60 freshProd freshCart
      (by decide) (by decide) (by decide) (by decide) (by decide) (by decide),
   c7_price_snapshot.2.2.2.1 driftDb 3 2 3 driftItem (by decide) (by decide),
   c7_price_snapshot.2.2.2.2.2.2.2.2.1 driftDb 3,
   c7_price_snapshot.2.2.2.2.2.2.2.2.2.2.2.2.2.1 driftDb 7⟩

/-- C6 witness: an order-approved event against the paid store is ignored
with a 200 acknowledgement. -/

theorem c6_webhook_ignores_other_events_witness :
    Paypal.handlePaypalWebhook paidDb
      { eventType := "CHECKOUT.ORDER.APPROVED", resourceId := 1, relatedOrderId := none } 0 =
      ⟨paidDb, .okJson⟩ ∧ Resp.httpStatus .okJson = 200 :=
  c6_webhook_ignores_other_events paidDb _ 0 (by decide)

/-! ## Claim C4 — placement/cancellation stock round-trip -/

/-- A stock decrement on one product commutes with a stock increment on
another (or the same) product. -/

theorem decP_incP_comm (ps : List Product) (p : Nat) (q : Int) (p' : Nat) (q' : Int) :
    Orders.decStockP (Orders.incStockP ps p q) p' q' =
      Orders.incStockP (Orders.decStockP ps p' q') p q := by
  unfold Orders.decStockP Orders.incStockP
  rw [List.map_map, List.map_map]
  apply List.map_congr_left
  intro a _
  simp only [Function.comp_apply]
  cases h2 : (a.id == p) <;> cases h1 : (a.id == p') <;>
    first
    | (simp [h1, h2, Product.mk.injEq]; omega)
    | simp [h1, h2, Product.mk.injEq]

/-- Incrementing a product's stock undoes the matching decrement. -/

theorem incP_decP_cancel (ps : List Product) (p : Nat) (q : Int) :
    Orders.incStockP (Orders.decStockP ps p q) p q = ps := by
  unfold Orders.decStockP Orders.incStockP
  rw [List.map_map]
  have h : ∀ a ∈ ps,
      ((fun x => if x.id == p then { x with stockQuantity := x.stockQuantity + q } else x) ∘
        (fun x => if x.id == p then { x with stockQuantity := x.stockQuantity - q } else x)) a
        = id a := by
    intro a _
    simp only [Function.comp_apply, id]
    cases h2 : (a.id == p) <;> simp [h2, Product.mk.injEq]
  rw [List.map_congr_left h, List.map_id]

/-- A single increment pushes through a fold of decrements. -/

theorem foldl_decP_incP (L : List (Nat × Int)) (ps : List Product) (p : Nat) (q : Int) :
    L.foldl (fun acc pr => Orders.decStockP acc pr.1 pr.2) (Orders.incStockP ps p q) =
      Orders.incStockP (L.foldl (fun acc pr => Orders.decStockP acc pr.1 pr.2) ps) p q := by
  induction L generalizing ps with
  | nil => rfl
  | cons a t ih =>
    simp only [List.foldl_cons]
    rw [decP_incP_comm]
    exact ih _

/-- Folding the increments of a request list over the result of folding its
decrements restores the original product list. -/

theorem decP_foldl_roundtrip (L : List (Nat × Int)) (ps : List Product) :
    L.foldl (fun acc pr => Orders.incStockP acc pr.1 pr.2)
      (L.foldl (fun acc pr => Orders.decStockP acc pr.1 pr.2) ps) = ps := by
  induction L generalizing ps with
  | nil => rfl
  | cons a t ih =>
    simp only [List.foldl_cons]
    rw [← foldl_decP_incP, incP_decP_cancel]
    exact ih _

/-- The decrement fold only rewrites the `products` table. -/

theorem foldl_decStock_products (L : List (Nat × Int)) (db : DB) :
    (L.foldl (fun d pr => Orders.decStock d pr.1 pr.2) db).products =
      L.foldl (fun ps pr => Orders.decStockP ps pr.1 pr.2) db.products := by
  induction L generalizing db with
  | nil => rfl
  | cons a t ih => simp only [List.foldl_cons]; exact ih _

/-- The decrement fold leaves the `orders` table alone. -/

theorem foldl_decStock_orders (L : List (Nat × Int)) (db : DB) :
    (L.foldl (fun d pr => Orders.decStock d pr.1 pr.2) db).orders = db.orders := by
  induction L generalizing db with
  | nil => rfl
  | cons a t ih => simp only [List.foldl_cons]; exact ih _

/-- The decrement fold leaves the `orderItems` table alone. -/

theorem foldl_decStock_orderItems (L : List (Nat × Int)) (db : DB) :
    (L.foldl (fun d pr => Orders.decStock d pr.1 pr.2) db).orderItems = db.orderItems := by
  induction L generalizing db with
  | nil => rfl
  | cons a t ih => simp only [List.foldl_cons]; exact ih _

/-- The increment fold of cancellation only rewrites the `products` table. -/

theorem foldl_incStock_products (its : List OrderItem) (db : DB) :
    (its.foldl (fun d it => Orders.incStock d it.productId it.quantity) db).products =
      its.foldl (fun ps it => Orders.incStockP ps it.productId it.quantity) db.products := by
  induction its generalizing db with
  | nil => rfl
  | cons a t ih => simp only [List.foldl_cons]; exact ih _

/-- A decrement rewrites the looked-up product row in place. -/

theorem find?_decP (ps : List Product) (p pid : Nat) (q : Int) (prod : Product)
    (h : ps.find? (·.id == pid) = some prod) :
    (Orders.decStockP ps p q).find? (·.id == pid) =
      some (if prod.id == p then { prod with stockQuantity := prod.stockQuantity - q }
            else prod) := by
  unfold Orders.decStockP
  rw [find?_map_self _ _ _ (fun a => by cases hh : (a.id == p) <;> simp)]
  rw [h]
  rfl

/-- Folding the decrements of a request list lowers a present product's stock
by exactly the total quantity the list orders for it. -/

theorem stockOfP_dec_fold (L : List (Nat × Int)) (ps : List Product) (pid : Nat)
    (prod : Product) (h : ps.find? (·.id == pid) = some prod) :
    Orders.stockOfP (L.foldl (fun acc pr => Orders.decStockP acc pr.1 pr.2) ps) pid =
      Orders.stockOfP ps pid - Orders.orderedQty L pid := by
  induction L generalizing ps prod with
  | nil => simp [Orders.orderedQty]
  | cons a t ih =>
    simp only [List.foldl_cons]
    have hid : prod.id = pid := by simpa using List.find?_some h
    have hstep := find?_decP ps a.1 pid a.2 prod h
    rw [ih (Orders.decStockP ps a.1 a.2) _ hstep]
    unfold Orders.stockOfP
    rw [hstep, h]
    unfold Orders.orderedQty
    simp only [List.filter_cons]
    by_cases hc : a.1 = pid
    · simp [hid, hc, beq_iff_eq]
      omega
    · have hc1 : (prod.id == a.1) = false := by simp [hid, beq_iff_eq]; omega
      have hc2 : (a.1 == pid) = false := by simp [beq_iff_eq]; omega
      simp [hc1, hc2]

/-- On the cancellation success path, the product table becomes the
increment fold over the cancelled order's items. -/

theorem cancelOrder_products (db : DB) (callerId : Nat) (isAdmin : Bool) (oid : Nat)
    (o : Order) (hfind : Paypal.findOrder db oid = some o)
    (hown : (o.userId != callerId && !isAdmin) = false)
    (hstate : (o.isShipped || o.isDelivered) = false) :
    (Orders.cancelOrder db callerId isAdmin oid).db.products =
      (db.orderItems.filter (·.orderId == oid)).foldl
        (fun ps it => Orders.incStockP ps it.productId it.quantity) db.products := by
  unfold Orders.cancelOrder
  simp only [hfind, hown, hstate, Bool.false_eq_true, if_false]
  exact foldl_incStock_products _ db

/-- C4: order placement decrements each referenced product's stock by the
total ordered quantity, and cancelling that same order (owner caller, not
shipped, not delivered) restores every product's stock to its pre-placement
value.  Modelled from the spec (§4.3/§4.4): `order.controller.ts` is not
among the provided sources.  The freshness hypotheses say the store assigns
an order id not already in use. -/

theorem c4_place_cancel_roundtrip (db : DB) (userId : Nat) (reqItems : List (Nat × Int))
    (total : ℚ) (oid base : Nat) (pid : Nat) (prod : Product)
    (hval : Orders.validateItems db reqItems = none)
    (hofresh : db.orders.all (fun o => o.id != oid) = true)
    (hifresh : db.orderItems.all (fun it => it.orderId != oid) = true)
    (hpid : findProduct db pid = some prod) :
    Orders.stockOf (Orders.placeOrder db userId reqItems total oid base).db pid =
      prod.stockQuantity - Orders.orderedQty reqItems pid ∧
    Orders.stockOf
      (Orders.cancelOrder (Orders.placeOrder db userId reqItems total oid base).db
        userId false oid).db pid = prod.stockQuantity := by
  set newOrder : Order :=
    { id := oid, userId := userId, total := total, status := .PENDING,
      isPaid := false, isShipped := false, isDelivered := false, paidAt := none,
      paymentMethod := none, paymentProviderOrderId := none, paymentResult := none }
    with hNO
  set newItems : List OrderItem := reqItems.enum.map (fun pr =>
    { id := base + pr.1, orderId := oid, productId := pr.2.1,
      name := ((findProduct db pr.2.1).getD default).name,
      price := ((findProduct db pr.2.1).getD default).price,
      quantity := pr.2.2,
      totalPrice := ((findProduct db pr.2.1).getD default).price * (pr.2.2 : ℚ) })
    with hNI
  set B : DB :=
    { db with orders := db.orders ++ [newOrder], orderItems := db.orderItems ++ newItems }
    with hB
  have hr : Orders.placeOrder db userId reqItems total oid base =
      ⟨reqItems.foldl (fun d pr => Orders.decStock d pr.1 pr.2) B, .created, some oid⟩ := by
    unfold Orders.placeOrder
    rw [hval]
  have hprodeq : findProduct db pid = some prod := hpid
  unfold findProduct at hprodeq
  have hstock1 : Orders.stockOf (Orders.placeOrder db userId reqItems total oid base).db pid =
      prod.stockQuantity - Orders.orderedQty reqItems pid := by
    rw [hr]
    unfold Orders.stockOf
    rw [foldl_decStock_products]
    rw [stockOfP_dec_fold reqItems B.products pid prod hprodeq]
    unfold Orders.stockOfP
    rw [show B.products = db.products from rfl, hprodeq]
    rfl
  refine ⟨hstock1, ?_⟩
  rw [hr]
  have hordersP : (reqItems.foldl (fun d pr => Orders.decStock d pr.1 pr.2) B).orders
      = db.orders ++ [newOrder] := by
    rw [foldl_decStock_orders]
  have hitemsP : (reqItems.foldl (fun d pr => Orders.decStock d pr.1 pr.2) B).orderItems
      = db.orderItems ++ newItems := by
    rw [foldl_decStock_orderItems]
  have hfind : Paypal.findOrder (reqItems.foldl (fun d pr => Orders.decStock d pr.1 pr.2) B) oid
      = some newOrder := by
    unfold Paypal.findOrder
    rw [hordersP, List.find?_append]
    have hnone : db.orders.find? (·.id == oid) = none := by
      rw [List.find?_eq_none]
      intro x hx
      have hx2 := List.all_eq_true.mp hofresh x hx
      simp only [bne_iff_ne] at hx2
      simp [hx2]
    rw [hnone, Option.none_or]
    simp [List.find?, hNO]
  have hoitems : ((reqItems.foldl (fun d pr => Orders.decStock d pr.1 pr.2) B).orderItems.filter
      (·.orderId == oid)) = newItems := by
    rw [hitemsP, List.filter_append]
    have h1 : db.orderItems.filter (·.orderId == oid) = [] := by
      rw [List.filter_eq_nil_iff]
      intro x hx
      have hx2 := List.all_eq_true.mp hifresh x hx
      simp only [bne_iff_ne] at hx2
      simp [hx2]
    have h2 : newItems.filter (·.orderId == oid) = newItems := by
      rw [List.filter_eq_self]
      intro x hx
      rw [hNI] at hx
      obtain ⟨ipr, _, rfl⟩ := List.mem_map.mp hx
      simp
    rw [h1, h2, List.nil_append]
  have hown : (newOrder.userId != userId && !false) = false := by simp [hNO]
  have hstate : (newOrder.isShipped || newOrder.isDelivered) = false := by simp [hNO]
  have hp2 := cancelOrder_products _ userId false oid newOrder hfind hown hstate
  rw [hoitems] at hp2
  unfold Orders.stockOf
  rw [hp2]
  have hprods : (reqItems.foldl (fun d pr => Orders.decStock d pr.1 pr.2) B).products
      = reqItems.foldl (fun ps pr => Orders.decStockP ps pr.1 pr.2) db.products := by
    rw [foldl_decStock_products]
  rw [hprods]
  have hconv : ∀ X : List Product,
      newItems.foldl (fun ps it => Orders.incStockP ps it.productId it.quantity) X =
        reqItems.foldl (fun ps pr => Orders.incStockP ps pr.1 pr.2) X := by
    intro X
    rw [hNI, List.foldl_map]
    conv_rhs => rw [← List.enum_map_snd reqItems, List.foldl_map]
  rw [hconv _, decP_foldl_roundtrip]
  unfold Orders.stockOfP
  rw [hprodeq]
  rfl

/-- C4 witness: placing 3 Shields and 2 Spears on `roundDb` and cancelling
the placed order (id 100) restores product 11's stock. -/

theorem c4_place_cancel_roundtrip_witness :
    Orders.stockOf (Orders.placeOrder roundDb 1 [(11, 3), (12, 2)] 130 100 200).db 11 =
      roundProdA.stockQuantity - Orders.orderedQty [(11, 3), (12, 2)] 11 ∧
    Orders.stockOf
      (Orders.cancelOrder (Orders.placeOrder roundDb 1 [(11, 3), (12, 2)] 130 100 200).db
        1 false 100).db 11 = roundProdA.stockQuantity :=
  c4_place_cancel_roundtrip roundDb 1 [(11, 3), (12, 2)] 130 100 200 11 roundProdA
    (by decide) (by decide) (by decide) (by decide)

end JFD
